import Mathlib

/-!
# Verification of the vision-bill-parser classification and routing core

Shallow embedding of the document classification and routing engine of the
`onebill-vision-parse` edge function (`src/supabase/functions/onebill-vision-parse/index.ts`)
and of the retry coordinator (`src/unnamed/part_002`).

JavaScript values are modelled as follows: optional object fields become
`Option`, string truthiness (`!!s`) becomes "present and non-empty",
JSON numbers become `Rat` (bill amounts are decimal literals; no claim
depends on binary floating-point behaviour), `Date` values become civil
day numbers (`Int`), and JS `Invalid Date` becomes `none` with the
NaN-comparison semantics (`NaN < x` is `false`) made explicit at each
comparison site.
-/

namespace VisionBillParser

/-! ## JS string primitives -/

/-- JS `\d` character class (ASCII digits). -/
def jsDigit (c : Char) : Bool := '0' ≤ c && c ≤ '9'

/-- JS `\s` character class, restricted to the ASCII whitespace characters
that occur in the data this core handles. -/
def jsWhitespace (c : Char) : Bool :=
  c = ' ' || c = '\t' || c = '\n' || c = '\r' || c = '\x0b' || c = '\x0c'

/-- JS `String.prototype.toUpperCase`, restricted to basic Latin
(the identifiers this code upper-cases are ASCII). -/
def jsUpper (s : String) : String := String.mk (s.data.map Char.toUpper)

/-- JS `String.prototype.toLowerCase`, restricted to basic Latin. -/
def jsLower (s : String) : String := String.mk (s.data.map Char.toLower)

/-- JS `s.startsWith(pre)`. -/
def jsStartsWith (s pre : String) : Bool := pre.data.isPrefixOf s.data

/-- JS `s.includes(sub)` (substring containment). -/
def jsIncludes (s sub : String) : Bool := decide (sub.data <:+: s.data)

/-- JS `p.replace(/\s+/g, "")`: drop every whitespace character. -/
def normalizePhone (p : String) : String :=
  String.mk (p.data.filter (fun c => !jsWhitespace c))

/-- JS `text.slice(0, n)` on a string (truncation). -/
def jsSlice (s : String) (n : Nat) : String := String.mk (s.data.take n)

/-- Truthiness of an optional JS string: present and non-empty. -/
def strTruthy : Option String → Bool
  | none => false
  | some s => !(s = "")

/-- JS `a || b` on optional strings: keep `a` when it is truthy, otherwise `b`. -/
def jsOrStr (a b : Option String) : Option String :=
  if strTruthy a then a else b

/-- Truthiness of an optional JS number: present and non-zero.
`x && x > 0` over an optional number is `numPos`. -/
def numPos : Option Rat → Bool
  | none => false
  | some q => decide (0 < q)

/-- Digit string to `Nat` (the effect of `parseInt` on an all-digit string). -/
def digitsToNat (cs : List Char) : Nat :=
  cs.foldl (fun acc c => acc * 10 + (c.toNat - '0'.toNat)) 0

/-! ## JS `Date` model

`new Date(year, monthIndex, day)` produces a timestamp; comparing two such
dates compares timestamps.  We model a date by its civil day number
(days since 1970-01-01), using the standard days-from-civil formula, with
the month-index and day-overflow normalization that the JS constructor
performs. -/

/-- Leap year predicate (proleptic Gregorian, as JS `Date`). -/
def isLeapYear (y : Int) : Bool := (y % 4 = 0 && y % 100 ≠ 0) || y % 400 = 0

/-- Days from civil date (Gregorian), valid for months 1..12 and any day
value (day overflow extends linearly, matching the JS `Date` constructor). -/
def daysFromCivil (y m d : Int) : Int :=
  let y' := if m ≤ 2 then y - 1 else y
  let era := Int.fdiv y' 400
  let yoe := y' - era * 400
  let mp := Int.fmod (m + 9) 12
  let doy := Int.fdiv (153 * mp + 2) 5 + d - 1
  let doe := yoe * 365 + Int.fdiv yoe 4 - Int.fdiv yoe 100 + doy
  era * 146097 + doe - 719468

/-- JS `new Date(y, m0, d)` (month index `m0`, normalized by the
constructor), as a civil day number. -/
def jsDateCtor (y m0 d : Int) : Int :=
  daysFromCivil (y + Int.fdiv m0 12) (Int.fmod m0 12 + 1) d

/-- Number of days in a month (for ISO-format validation). -/
def daysInMonth (y m : Int) : Int :=
  if m = 2 then (if isLeapYear y then 29 else 28)
  else if m = 4 || m = 6 || m = 9 || m = 11 then 30
  else 31

/-- JS `new Date(str)` for an ISO `YYYY-MM-DD` date-only string: `some`
civil day number when the string is a well-formed calendar date, `none`
(JS `Invalid Date`) otherwise.  Non-ISO fallback parsing formats are out
of scope: the dates this core handles are `YYYY-MM-DD` or the sentinel. -/
def jsParseISODate (s : String) : Option Int :=
  match s.data with
  | [y1, y2, y3, y4, h1, m1, m2, h2, d1, d2] =>
    if jsDigit y1 && jsDigit y2 && jsDigit y3 && jsDigit y4 && h1 = '-' &&
       jsDigit m1 && jsDigit m2 && h2 = '-' && jsDigit d1 && jsDigit d2 then
      let y : Int := digitsToNat [y1, y2, y3, y4]
      let m : Int := digitsToNat [m1, m2]
      let d : Int := digitsToNat [d1, d2]
      if 1 ≤ m && m ≤ 12 && 1 ≤ d && d ≤ daysInMonth y m then
        some (daysFromCivil y m d)
      else none
    else none
  | _ => none

/-- `<` between two possibly-invalid JS dates: `false` whenever either
side is invalid (NaN comparison semantics). -/
def optDateLt (a b : Option Int) : Bool :=
  match a, b with
  | some x, some y => decide (x < y)
  | _, _ => false

/-- `>=` between two possibly-invalid JS dates, NaN semantics. -/
def optDateGe (a b : Option Int) : Bool :=
  match a, b with
  | some x, some y => decide (x ≥ y)
  | _, _ => false

/-! ## Extraction result data model

Mirrors the `parse_irish_bill` tool schema of `index.ts` (lines 415-704);
every object field the schema marks optional (all of them) is an `Option`,
and the boundary normalization (lines 1084-1098) guarantees the four
top-level arrays are present. -/

/-- One meter reading.  The electricity schema has `reading_type`/`date`
plus numeric readings, the gas schema `meter_type`/`date`/`reading`; the
code additionally reads a `read_date` fallback that no schema declares. -/
structure MeterReading where
  date : Option String := none
  read_date : Option String := none
  reading_type : Option String := none
  reading : Option Rat := none
deriving DecidableEq, Repr

/-- `electricity[].electricity_details.meter_details`. -/
structure ElecMeterDetails where
  mprn : Option String := none
  dg : Option String := none
  mcc : Option String := none
  profile : Option String := none
deriving DecidableEq, Repr

/-- `electricity[].electricity_details`. -/
structure ElectricityDetails where
  invoice_number : Option String := none
  account_number : Option String := none
  contract_end_date : Option String := none
  meter_details : Option ElecMeterDetails := none
deriving DecidableEq, Repr

/-- `supplier_details` (shared shape between the utility branches). -/
structure SupplierDetails where
  name : Option String := none
  tariff_name : Option String := none
  issue_date : Option String := none
  billing_period : Option String := none
deriving DecidableEq, Repr

/-- `electricity[].charges_and_usage.unit_rates`. -/
structure ElecUnitRates where
  day : Option Rat := none
  night : Option Rat := none
  peak : Option Rat := none
  rate_currency : Option String := none
deriving DecidableEq, Repr

/-- One `detailed_kWh_usage` entry (only its presence is ever observed). -/
structure KwhUsageEntry where
  start_read_date : Option String := none
  end_read_date : Option String := none
  day_kWh : Option Rat := none
deriving DecidableEq, Repr

/-- `electricity[].charges_and_usage`.  `total_amount_due` is read by the
confidence scorer though no schema declares it. -/
structure ElecCharges where
  meter_readings : Option (List MeterReading) := none
  detailed_kWh_usage : Option (List KwhUsageEntry) := none
  unit_rates : Option ElecUnitRates := none
  standing_charge : Option Rat := none
  pso_levy : Option Rat := none
  total_amount_due : Option Rat := none
deriving DecidableEq, Repr

/-- `financial_information` (shared shape). -/
structure FinancialInfo where
  total_due : Option Rat := none
  amount_due : Option Rat := none
  due_date : Option String := none
  payment_due_date : Option String := none
deriving DecidableEq, Repr

/-- One electricity bill entry. -/
structure ElectricityBill where
  electricity_details : Option ElectricityDetails := none
  supplier_details : Option SupplierDetails := none
  charges_and_usage : Option ElecCharges := none
  financial_information : Option FinancialInfo := none
deriving DecidableEq, Repr

/-- `gas[].gas_details.meter_details`. -/
structure GasMeterDetails where
  gprn : Option String := none
deriving DecidableEq, Repr

/-- `gas[].gas_details`.  `conversion_factor` and `calorific_value` are
read by the confidence scorer though no schema declares them. -/
structure GasDetails where
  invoice_number : Option String := none
  account_number : Option String := none
  contract_end_date : Option String := none
  meter_details : Option GasMeterDetails := none
  conversion_factor : Option String := none
  calorific_value : Option String := none
deriving DecidableEq, Repr

/-- `gas[].charges_and_usage.unit_rates`. -/
structure GasUnitRates where
  rate : Option Rat := none
  rate_currency : Option String := none
deriving DecidableEq, Repr

/-- `gas[].charges_and_usage`.  `gas_usage` and `total_amount_due` are
read by the confidence scorer though no schema declares them. -/
structure GasCharges where
  meter_readings : Option (List MeterReading) := none
  unit_rates : Option GasUnitRates := none
  standing_charge : Option Rat := none
  carbon_tax : Option Rat := none
  gas_usage : Option (List KwhUsageEntry) := none
  total_amount_due : Option Rat := none
deriving DecidableEq, Repr

/-- One gas bill entry. -/
structure GasBill where
  gas_details : Option GasDetails := none
  supplier_details : Option SupplierDetails := none
  charges_and_usage : Option GasCharges := none
  financial_information : Option FinancialInfo := none
deriving DecidableEq, Repr

/-- `cus_details[].details.address`. -/
structure CusAddress where
  line_1 : Option String := none
  line_2 : Option String := none
  city : Option String := none
  county : Option String := none
  eircode : Option String := none
deriving DecidableEq, Repr

/-- `cus_details[].details`. -/
structure CusInner where
  customer_name : Option String := none
  address : Option CusAddress := none
deriving DecidableEq, Repr

/-- `cus_details[].services`. -/
structure CusServices where
  gas : Option Bool := none
  broadband : Option Bool := none
  electricity : Option Bool := none
deriving DecidableEq, Repr

/-- One customer entry. -/
structure CusDetails where
  details : Option CusInner := none
  services : Option CusServices := none
deriving DecidableEq, Repr

/-- One broadband bill entry (extracted for display only; never
classified, routed or inspected by the core logic). -/
structure BroadbandBill where
  account_number : Option String := none
  supplier_details : Option SupplierDetails := none
  financial_information : Option FinancialInfo := none
deriving DecidableEq, Repr

/-- The normalized `parsedData.bills` object: after the boundary
normalization all four arrays are present. -/
structure Bills where
  cus_details : List CusDetails := []
  electricity : List ElectricityBill := []
  gas : List GasBill := []
  broadband : List BroadbandBill := []
deriving DecidableEq, Repr

/-- Truthiness of an optional JS array: present and non-empty
(`!!xs?.length`). -/
def listTruthy {α : Type} : Option (List α) → Bool
  | none => false
  | some l => !l.isEmpty

/-! ## Consistency validator (index.ts lines 1100-1186)

All of the inputs to the three validation rules — the two data-point
counts, the provider flags and the identifier/billing-field flags — are
computed from `electricityData`/`gasData`, references captured *before*
any rule mutates `parsedData.bills`. -/

/-- `countElectricityData` (lines 1108-1120): 8 truthiness signals,
including the mprn and dg identifiers. -/
def countElectricityData (eD : Option ElectricityBill) : Nat :=
  match eD with
  | none => 0
  | some e =>
    (List.filter id
      [ strTruthy (e.electricity_details.bind (·.invoice_number)),
        strTruthy (e.electricity_details.bind (·.account_number)),
        strTruthy ((e.electricity_details.bind (·.meter_details)).bind (·.mprn)),
        strTruthy ((e.electricity_details.bind (·.meter_details)).bind (·.dg)),
        strTruthy (e.supplier_details.bind (·.billing_period)),
        listTruthy (e.charges_and_usage.bind (·.meter_readings)),
        (e.charges_and_usage.bind (·.unit_rates)).isSome,
        numPos (e.financial_information.bind (·.total_due)) ]).length

/-- `countGasData` (lines 1122-1133): 7 truthiness signals, including the
gprn identifier. -/
def countGasData (gD : Option GasBill) : Nat :=
  match gD with
  | none => 0
  | some g =>
    (List.filter id
      [ strTruthy (g.gas_details.bind (·.invoice_number)),
        strTruthy (g.gas_details.bind (·.account_number)),
        strTruthy ((g.gas_details.bind (·.meter_details)).bind (·.gprn)),
        strTruthy (g.supplier_details.bind (·.billing_period)),
        listTruthy (g.charges_and_usage.bind (·.meter_readings)),
        (g.charges_and_usage.bind (·.unit_rates)).isSome,
        numPos (g.financial_information.bind (·.total_due)) ]).length

/-- The static electricity-only supplier-name substrings (line 1144). -/
def electricityOnlyProviders : List String :=
  ["electric ireland", "esb networks", "esb energy", "energia"]

/-- The static gas-only supplier-name substrings (line 1145). -/
def gasOnlyProviders : List String := ["flogas", "natural gas"]

/-- `electricityProvider` (line 1141): lower-cased supplier name, `""`
when absent. -/
def electricityProviderName (eD : Option ElectricityBill) : String :=
  jsLower (((eD.bind (·.supplier_details)).bind (·.name)).getD "")

/-- `gasProvider` (line 1142). -/
def gasProviderName (gD : Option GasBill) : String :=
  jsLower (((gD.bind (·.supplier_details)).bind (·.name)).getD "")

/-- `isElectricityOnlyProvider` (line 1147). -/
def isElectricityOnlyProvider (eD : Option ElectricityBill) : Bool :=
  electricityOnlyProviders.any (fun p => jsIncludes (electricityProviderName eD) p)

/-- `isGasOnlyProvider` (line 1148). -/
def isGasOnlyProvider (gD : Option GasBill) : Bool :=
  gasOnlyProviders.any (fun p => jsIncludes (gasProviderName gD) p)

/-- `hasElectricityIdentifier` (line 1169): mprn-or-dg truthy. -/
def hasElectricityIdentifier (eD : Option ElectricityBill) : Bool :=
  strTruthy (((eD.bind (·.electricity_details)).bind (·.meter_details)).bind (·.mprn)) ||
  strTruthy (((eD.bind (·.electricity_details)).bind (·.meter_details)).bind (·.dg))

/-- `hasElectricityBillingFields` (line 1170). -/
def hasElectricityBillingFields (eD : Option ElectricityBill) : Bool :=
  strTruthy ((eD.bind (·.electricity_details)).bind (·.invoice_number)) ||
  strTruthy ((eD.bind (·.electricity_details)).bind (·.account_number)) ||
  strTruthy ((eD.bind (·.supplier_details)).bind (·.billing_period))

/-- `hasGasIdentifier` (line 1172). -/
def hasGasIdentifier (gD : Option GasBill) : Bool :=
  strTruthy (((gD.bind (·.gas_details)).bind (·.meter_details)).bind (·.gprn))

/-- `hasGasBillingFields` (line 1173). -/
def hasGasBillingFields (gD : Option GasBill) : Bool :=
  strTruthy ((gD.bind (·.gas_details)).bind (·.invoice_number)) ||
  strTruthy ((gD.bind (·.gas_details)).bind (·.account_number)) ||
  strTruthy ((gD.bind (·.supplier_details)).bind (·.billing_period))

/-- VALIDATION RULE 1 (lines 1150-1157), acting on the current bills
with the data-point counts it tests passed in (the source computes them
from the pre-validation snapshot). -/
def applyRule1 (electricityDataPoints gasDataPoints : Nat) (b : Bills) : Bills :=
  if electricityDataPoints ≥ 4 ∧ gasDataPoints ≤ 2 ∧ gasDataPoints > 0 then
    { b with gas := [] }
  else if gasDataPoints ≥ 4 ∧ electricityDataPoints ≤ 2 ∧ electricityDataPoints > 0 then
    { b with electricity := [] }
  else b

/-- VALIDATION RULE 2 (lines 1159-1166). -/
def applyRule2 (isElecOnly isGasOnly : Bool) (electricityDataPoints gasDataPoints : Nat)
    (b : Bills) : Bills :=
  if isElecOnly ∧ gasDataPoints > 0 then
    { b with gas := [] }
  else if isGasOnly ∧ electricityDataPoints > 0 then
    { b with electricity := [] }
  else b

/-- VALIDATION RULE 3 (lines 1168-1183): the electricity check, then the
gas check. -/
def applyRule3 (hasEId hasEBF : Bool) (electricityDataPoints : Nat)
    (hasGId hasGBF : Bool) (gasDataPoints : Nat) (b : Bills) : Bills :=
  let b' :=
    if hasEId ∧ ¬ hasEBF ∧ electricityDataPoints ≤ 1 then { b with electricity := [] } else b
  if hasGId ∧ ¬ hasGBF ∧ gasDataPoints ≤ 1 then { b' with gas := [] } else b'

/-- The consistency validation block (lines 1100-1186).  The snapshot
values (`electricityData`, `gasData`, the counts and the flags) are
computed once, before any rule fires, exactly as in the source — the
rules reassign only `parsedData.bills.electricity` /
`parsedData.bills.gas`, never the captured snapshot variables. -/
def validateConsistency (b : Bills) : Bills :=
  let electricityData := b.electricity.head?
  let gasData := b.gas.head?
  let electricityDataPoints := countElectricityData electricityData
  let gasDataPoints := countGasData gasData
  applyRule3 (hasElectricityIdentifier electricityData)
    (hasElectricityBillingFields electricityData) electricityDataPoints
    (hasGasIdentifier gasData) (hasGasBillingFields gasData) gasDataPoints
    (applyRule2 (isElectricityOnlyProvider electricityData) (isGasOnlyProvider gasData)
      electricityDataPoints gasDataPoints
      (applyRule1 electricityDataPoints gasDataPoints b))

/-! ## Document classifier (index.ts lines 1188-1341) -/

/-- `electricityBillingIndicators` (lines 1196-1203): the 6 billing
signals — invoice_number, account_number, billing_period, total_due>0,
meter_readings non-empty, unit_rates present. -/
def electricityBillingIndicators (eD : Option ElectricityBill) : Nat :=
  (List.filter id
    [ strTruthy ((eD.bind (·.electricity_details)).bind (·.invoice_number)),
      strTruthy ((eD.bind (·.electricity_details)).bind (·.account_number)),
      strTruthy ((eD.bind (·.supplier_details)).bind (·.billing_period)),
      numPos ((eD.bind (·.financial_information)).bind (·.total_due)),
      listTruthy ((eD.bind (·.charges_and_usage)).bind (·.meter_readings)),
      ((eD.bind (·.charges_and_usage)).bind (·.unit_rates)).isSome ]).length

/-- `gasBillingIndicators` (lines 1211-1218). -/
def gasBillingIndicators (gD : Option GasBill) : Nat :=
  (List.filter id
    [ strTruthy ((gD.bind (·.gas_details)).bind (·.invoice_number)),
      strTruthy ((gD.bind (·.gas_details)).bind (·.account_number)),
      strTruthy ((gD.bind (·.supplier_details)).bind (·.billing_period)),
      numPos ((gD.bind (·.financial_information)).bind (·.total_due)),
      listTruthy ((gD.bind (·.charges_and_usage)).bind (·.meter_readings)),
      ((gD.bind (·.charges_and_usage)).bind (·.unit_rates)).isSome ]).length

/-- `mprn` as read for classification (line 1189), on the validated bills. -/
def classificationMprn (b : Bills) : Option String :=
  ((b.electricity.head?.bind (·.electricity_details)).bind (·.meter_details)).bind (·.mprn)

/-- `dg` (line 1190). -/
def classificationDg (b : Bills) : Option String :=
  ((b.electricity.head?.bind (·.electricity_details)).bind (·.meter_details)).bind (·.dg)

/-- `mcc` (line 1191). -/
def classificationMcc (b : Bills) : Option String :=
  ((b.electricity.head?.bind (·.electricity_details)).bind (·.meter_details)).bind (·.mcc)

/-- `gprn` (line 1208). -/
def classificationGprn (b : Bills) : Option String :=
  ((b.gas.head?.bind (·.gas_details)).bind (·.meter_details)).bind (·.gprn)

/-- `hasElectricityData` (lines 1194-1205): identifier present and at
least 3 of the 6 billing indicators. -/
def hasElectricityData (b : Bills) : Bool :=
  (strTruthy (classificationMprn b) || strTruthy (classificationDg b)) &&
    decide (electricityBillingIndicators b.electricity.head? ≥ 3)

/-- `hasGasData` (lines 1208-1220). -/
def hasGasData (b : Bills) : Bool :=
  strTruthy (classificationGprn b) &&
    decide (gasBillingIndicators b.gas.head? ≥ 3)

/-! ## Identifier normalization (index.ts lines 1292-1303) -/

/-- `prefixMcc`: `""` for a falsy input, otherwise the upper-cased value,
prefixed with `"MCC"` unless already so prefixed. -/
def prefixMcc (val : Option String) : String :=
  match val with
  | none => ""
  | some v =>
    if v = "" then ""
    else
      let upper := jsUpper v
      if jsStartsWith upper "MCC" then upper else "MCC" ++ upper

/-- `prefixDg`: as `prefixMcc` with prefix `"DG"`. -/
def prefixDg (val : Option String) : String :=
  match val with
  | none => ""
  | some v =>
    if v = "" then ""
    else
      let upper := jsUpper v
      if jsStartsWith upper "DG" then upper else "DG" ++ upper

/-! ## Payload builder (index.ts lines 1305-1341) -/

/-- One outbound API call spec; a `none` payload is the meter call's
"no extracted fields" case. -/
structure ApiCall where
  endpoint : String
  type : String
  payload : Option (List (String × String)) := none
deriving DecidableEq, Repr

/-- `apiCalls` (lines 1306-1341): electricity call when
`hasElectricityData`, gas call when `hasGasData`, and the meter default
exactly when neither. -/
def buildApiCalls (b : Bills) (phone : String) : List ApiCall :=
  (if hasElectricityData b then
    [{ endpoint := "https://api.onebill.ie/api/electricity-file"
       type := "electricity"
       payload := some
         [ ("phone", normalizePhone phone),
           ("mprn", (classificationMprn b).getD ""),
           ("mcc_type", prefixMcc (classificationMcc b)),
           ("dg_type", prefixDg (classificationDg b)) ] }]
   else []) ++
  (if hasGasData b then
    [{ endpoint := "https://api.onebill.ie/api/gas-file"
       type := "gas"
       payload := some
         [ ("phone", normalizePhone phone),
           ("gprn", (classificationGprn b).getD "") ] }]
   else []) ++
  (if ¬ hasElectricityData b ∧ ¬ hasGasData b then
    [{ endpoint := "https://api.onebill.ie/api/meter-file"
       type := "meter"
       payload := none }]
   else [])

/-- One multipart form entry as built by the dispatch code. -/
inductive FormEntry where
  | file (name : String)
  | text (key value : String)
deriving DecidableEq, Repr

/-- The multipart form built for one call by the dispatch code
(lines 1354-1415): the meter branch appends the original file and the
*raw* `phone` variable (line 1372); the electricity/gas branch appends
the file and then every payload pair. -/
def formEntriesFor (call : ApiCall) (phone : String) (fileName : String) : List FormEntry :=
  if call.type = "meter" then
    [FormEntry.file fileName, FormEntry.text "phone" phone]
  else
    FormEntry.file fileName ::
      (call.payload.getD []).map (fun kv => FormEntry.text kv.1 kv.2)

/-! ## Date correlator (index.ts lines 1223-1246) -/

/-- Does `/\d{4}-\d{2}-\d{2}/` match at the start of this character list? -/
def isoAt (cs : List Char) : Bool :=
  match cs with
  | y1 :: y2 :: y3 :: y4 :: h1 :: m1 :: m2 :: h2 :: d1 :: d2 :: _ =>
    jsDigit y1 && jsDigit y2 && jsDigit y3 && jsDigit y4 && h1 = '-' &&
    jsDigit m1 && jsDigit m2 && h2 = '-' && jsDigit d1 && jsDigit d2
  | _ => false

/-- Leftmost, non-overlapping scan for `/(\d{4}-\d{2}-\d{2})/g`, with a
fuel bound (call with `fuel = cs.length`). -/
def scanISOAux : Nat → List Char → List String
  | 0, _ => []
  | _ + 1, [] => []
  | fuel + 1, c :: rest =>
    if isoAt (c :: rest) then
      String.mk ((c :: rest).take 10) :: scanISOAux fuel ((c :: rest).drop 10)
    else
      scanISOAux fuel rest

/-- `billingPeriod.match(/(\d{4}-\d{2}-\d{2})/g)`: every `YYYY-MM-DD`
shaped substring, left to right, non-overlapping. -/
def extractISODates (s : String) : List String := scanISOAux s.data.length s.data

/-- The warning string pushed for reading number `idx + 1`
(line 1241). -/
def readingWarning (idx : Nat) (readDate periodStart periodEnd : String) : String :=
  "Meter reading " ++ toString (idx + 1) ++ " date " ++ readDate ++
    " falls outside billing period " ++ periodStart ++ " to " ++ periodEnd

/-- The `readings.forEach` accumulation (lines 1235-1243): one warning per
reading whose (`date || read_date`) is truthy, is not the sentinel, and
parses to a date before `startDate` or after `endDate` (invalid-date
comparisons are false). -/
def correlatorWarnAux (startDate endDate : Option Int) (ps pe : String) :
    Nat → List MeterReading → List String
  | _, [] => []
  | idx, r :: rest =>
    match jsOrStr r.date r.read_date with
    | none => correlatorWarnAux startDate endDate ps pe (idx + 1) rest
    | some rd =>
      if rd = "" ∨ rd = "0000-00-00" then
        correlatorWarnAux startDate endDate ps pe (idx + 1) rest
      else
        let date := jsParseISODate rd
        if optDateLt date startDate || optDateLt endDate date then
          readingWarning idx rd ps pe :: correlatorWarnAux startDate endDate ps pe (idx + 1) rest
        else
          correlatorWarnAux startDate endDate ps pe (idx + 1) rest

/-- `validateMeterReadingDates` (lines 1223-1246). -/
def validateMeterReadingDates (billingPeriod : String) (readings : List MeterReading) :
    List String :=
  if billingPeriod = "" then []
  else if readings.isEmpty then []
  else
    match extractISODates billingPeriod with
    | periodStart :: periodEnd :: _ =>
      correlatorWarnAux (jsParseISODate periodStart) (jsParseISODate periodEnd)
        periodStart periodEnd 0 readings
    | _ => []

/-! ## Confidence scorer (index.ts lines 91-213)

The key-fields sub-score resolves dotted paths with
`path.split('.').reduce((obj, key) => obj?.[key], parsedData)` — a
*literal* property lookup per segment — so we model the parsed document
generically as a JSON value and the lookup over it. -/

/-- A JSON value (the parsed AI output). -/
inductive JsonVal where
  | str (s : String)
  | num (q : Rat)
  | boolean (b : Bool)
  | null
  | arr (elems : List JsonVal)
  | obj (fields : List (String × JsonVal))

/-- First-match lookup of a key in a JSON object's field list. -/
def lookupField : List (String × JsonVal) → String → Option JsonVal
  | [], _ => none
  | (k, v) :: rest, key => if k = key then some v else lookupField rest key

/-- One step of `obj?.[key]`: object fields by name; arrays only by an
all-digit index key; anything else yields `undefined`. -/
def JsonVal.getKey : JsonVal → String → Option JsonVal
  | JsonVal.obj fields, key => lookupField fields key
  | JsonVal.arr elems, key =>
    if !(key = "") && key.data.all jsDigit then elems.get? (digitsToNat key.data) else none
  | _, _ => none

/-- JS `String.prototype.split` with a single-character separator:
accumulator-based scan producing the segments in order. -/
def jsSplitAux (sep : Char) : List Char → List Char → List String
  | [], cur => [String.mk cur.reverse]
  | c :: rest, cur =>
    if c = sep then String.mk cur.reverse :: jsSplitAux sep rest []
    else jsSplitAux sep rest (c :: cur)

/-- JS `s.split(sep)` for a one-character separator string. -/
def jsSplit (sep : Char) (s : String) : List String := jsSplitAux sep s.data []

/-- `path.split('.').reduce((obj, key) => obj?.[key], parsedData)`. -/
def pathLookup (root : JsonVal) (path : String) : Option JsonVal :=
  (jsSplit '.' path).foldl (fun acc key => acc.bind (fun v => v.getKey key)) (some root)

/-- JS `String.prototype.trim` (ASCII whitespace). -/
def jsTrim (s : String) : String :=
  String.mk (((s.data.dropWhile (fun c => jsWhitespace c)).reverse.dropWhile
    (fun c => jsWhitespace c)).reverse)

/-- `value && (typeof value !== 'string' || value.trim() !== '')`
(line 118). -/
def keyFieldValueCounts : Option JsonVal → Bool
  | none => false
  | some (JsonVal.str s) => !(jsTrim s = "")
  | some (JsonVal.num q) => !(q = 0)
  | some (JsonVal.boolean b) => b
  | some JsonVal.null => false
  | some (JsonVal.arr _) => true
  | some (JsonVal.obj _) => true

/-- `keyFieldsToCheck` (lines 102-111): path, points, and the optional
service-presence condition. -/
def keyFieldsToCheck (hasElec hasGas : Bool) : List (String × Nat × Option Bool) :=
  [ ("bills.customer[0].details.customer_name", 5, none),
    ("bills.customer[0].details.address", 5, none),
    ("bills.electricity[0].electricity_details.invoice_number", 7, some hasElec),
    ("bills.electricity[0].electricity_details.account_number", 7, some hasElec),
    ("bills.electricity[0].electricity_details.meter_details.mprn", 8, some hasElec),
    ("bills.gas[0].gas_details.invoice_number", 7, some hasGas),
    ("bills.gas[0].gas_details.account_number", 7, some hasGas),
    ("bills.gas[0].gas_details.gprn", 8, some hasGas) ]

/-- `keyFieldScore` accumulation (lines 113-121): skip a field whose
condition is `false`, otherwise add its points when the looked-up value
is truthy. -/
def keyFieldScore (root : JsonVal) (hasElec hasGas : Bool) : Nat :=
  (keyFieldsToCheck hasElec hasGas).foldl
    (fun acc f =>
      if f.2.2 = some false then acc
      else if keyFieldValueCounts (pathLookup root f.1) then acc + f.2.1
      else acc) 0

/-! ### JSON encoding of the extraction result

The shape of `parsedData` as the schema and the boundary normalization
produce it: a `bills` object whose keys are `cus_details`,
`electricity`, `gas`, `broadband`.  Absent optional fields are omitted. -/

/-- An optional field of a JSON object. -/
def optField (name : String) : Option JsonVal → List (String × JsonVal)
  | none => []
  | some v => [(name, v)]

/-- Encode an optional string field. -/
def optStrField (name : String) (v : Option String) : List (String × JsonVal) :=
  optField name (v.map JsonVal.str)

/-- Encode an optional number field. -/
def optNumField (name : String) (v : Option Rat) : List (String × JsonVal) :=
  optField name (v.map JsonVal.num)

/-- Encode one meter reading. -/
def encodeMeterReading (r : MeterReading) : JsonVal :=
  JsonVal.obj (optStrField "date" r.date ++ optStrField "read_date" r.read_date ++
    optStrField "reading_type" r.reading_type ++ optNumField "reading" r.reading)

/-- Encode one `detailed_kWh_usage` entry. -/
def encodeKwhUsage (u : KwhUsageEntry) : JsonVal :=
  JsonVal.obj (optStrField "start_read_date" u.start_read_date ++
    optStrField "end_read_date" u.end_read_date ++ optNumField "day_kWh" u.day_kWh)

/-- Encode `supplier_details`. -/
def encodeSupplier (s : SupplierDetails) : JsonVal :=
  JsonVal.obj (optStrField "name" s.name ++ optStrField "tariff_name" s.tariff_name ++
    optStrField "issue_date" s.issue_date ++ optStrField "billing_period" s.billing_period)

/-- Encode `financial_information`. -/
def encodeFinancial (f : FinancialInfo) : JsonVal :=
  JsonVal.obj (optNumField "total_due" f.total_due ++ optNumField "amount_due" f.amount_due ++
    optStrField "due_date" f.due_date ++ optStrField "payment_due_date" f.payment_due_date)

/-- Encode one electricity bill entry. -/
def encodeElectricityBill (e : ElectricityBill) : JsonVal :=
  JsonVal.obj
    (optField "electricity_details" (e.electricity_details.map (fun d =>
      JsonVal.obj (optStrField "invoice_number" d.invoice_number ++
        optStrField "account_number" d.account_number ++
        optStrField "contract_end_date" d.contract_end_date ++
        optField "meter_details" (d.meter_details.map (fun m =>
          JsonVal.obj (optStrField "mprn" m.mprn ++ optStrField "dg" m.dg ++
            optStrField "mcc" m.mcc ++ optStrField "profile" m.profile)))))) ++
     optField "supplier_details" (e.supplier_details.map encodeSupplier) ++
     optField "charges_and_usage" (e.charges_and_usage.map (fun c =>
       JsonVal.obj
         (optField "meter_readings" (c.meter_readings.map (fun rs =>
            JsonVal.arr (rs.map encodeMeterReading))) ++
          optField "detailed_kWh_usage" (c.detailed_kWh_usage.map (fun us =>
            JsonVal.arr (us.map encodeKwhUsage))) ++
          optField "unit_rates" (c.unit_rates.map (fun u =>
            JsonVal.obj (optNumField "day" u.day ++ optNumField "night" u.night ++
              optNumField "peak" u.peak ++ optStrField "rate_currency" u.rate_currency))) ++
          optNumField "standing_charge" c.standing_charge ++
          optNumField "pso_levy" c.pso_levy ++
          optNumField "total_amount_due" c.total_amount_due))) ++
     optField "financial_information" (e.financial_information.map encodeFinancial))

/-- Encode one gas bill entry. -/
def encodeGasBill (g : GasBill) : JsonVal :=
  JsonVal.obj
    (optField "gas_details" (g.gas_details.map (fun d =>
      JsonVal.obj (optStrField "invoice_number" d.invoice_number ++
        optStrField "account_number" d.account_number ++
        optStrField "contract_end_date" d.contract_end_date ++
        optField "meter_details" (d.meter_details.map (fun m =>
          JsonVal.obj (optStrField "gprn" m.gprn))) ++
        optStrField "conversion_factor" d.conversion_factor ++
        optStrField "calorific_value" d.calorific_value))) ++
     optField "supplier_details" (g.supplier_details.map encodeSupplier) ++
     optField "charges_and_usage" (g.charges_and_usage.map (fun c =>
       JsonVal.obj
         (optField "meter_readings" (c.meter_readings.map (fun rs =>
            JsonVal.arr (rs.map encodeMeterReading))) ++
          optField "unit_rates" (c.unit_rates.map (fun u =>
            JsonVal.obj (optNumField "rate" u.rate ++
              optStrField "rate_currency" u.rate_currency))) ++
          optNumField "standing_charge" c.standing_charge ++
          optNumField "carbon_tax" c.carbon_tax ++
          optField "gas_usage" (c.gas_usage.map (fun us =>
            JsonVal.arr (us.map encodeKwhUsage)))))) ++
     optField "financial_information" (g.financial_information.map encodeFinancial))

/-- Encode one customer entry. -/
def encodeCusDetails (c : CusDetails) : JsonVal :=
  JsonVal.obj
    (optField "details" (c.details.map (fun d =>
      JsonVal.obj (optStrField "customer_name" d.customer_name ++
        optField "address" (d.address.map (fun a =>
          JsonVal.obj (optStrField "line_1" a.line_1 ++ optStrField "line_2" a.line_2 ++
            optStrField "city" a.city ++ optStrField "county" a.county ++
            optStrField "eircode" a.eircode)))))) ++
     optField "services" (c.services.map (fun s =>
       JsonVal.obj (optField "gas" (s.gas.map JsonVal.boolean) ++
         optField "broadband" (s.broadband.map JsonVal.boolean) ++
         optField "electricity" (s.electricity.map JsonVal.boolean)))))

/-- Encode one broadband bill entry. -/
def encodeBroadbandBill (bb : BroadbandBill) : JsonVal :=
  JsonVal.obj
    (optStrField "account_number" bb.account_number ++
     optField "supplier_details" (bb.supplier_details.map encodeSupplier) ++
     optField "financial_information" (bb.financial_information.map encodeFinancial))

/-- Encode the normalized `parsedData.bills` object: its keys are
exactly `cus_details`, `electricity`, `gas`, `broadband`. -/
def encodeBills (b : Bills) : JsonVal :=
  JsonVal.obj
    [ ("cus_details", JsonVal.arr (b.cus_details.map encodeCusDetails)),
      ("electricity", JsonVal.arr (b.electricity.map encodeElectricityBill)),
      ("gas", JsonVal.arr (b.gas.map encodeGasBill)),
      ("broadband", JsonVal.arr (b.broadband.map encodeBroadbandBill)) ]

/-- Encode the whole `parsedData` document. -/
def encodeParsed (b : Bills) : JsonVal := JsonVal.obj [("bills", encodeBills b)]

/-! ### DD/MM/YYYY date handling of the confidence scorer -/

/-- Try `/\d{2}\/\d{2}\/\d{4}/` at the start of the character list,
returning the ten matched characters and the remainder. -/
def ddmmSplit (cs : List Char) : Option (List Char × List Char) :=
  match cs with
  | d1 :: d2 :: s1 :: m1 :: m2 :: s2 :: y1 :: y2 :: y3 :: y4 :: rest =>
    if jsDigit d1 && jsDigit d2 && s1 = '/' && jsDigit m1 && jsDigit m2 && s2 = '/' &&
       jsDigit y1 && jsDigit y2 && jsDigit y3 && jsDigit y4 then
      some ([d1, d2, s1, m1, m2, s2, y1, y2, y3, y4], rest)
    else none
  | _ => none

/-- First match of `/(\d{2})\/(\d{2})\/(\d{4})/` anywhere in the list,
as (day, month, year) numbers — the groups `parseDate` extracts. -/
def findDDMM : List Char → Option (Nat × Nat × Nat)
  | [] => none
  | c :: rest =>
    match ddmmSplit (c :: rest) with
    | some (g, _) =>
      some (digitsToNat (g.take 2), digitsToNat ((g.drop 3).take 2), digitsToNat (g.drop 6))
    | none => findDDMM rest

/-- `parseDate` (lines 207-213): first `DD/MM/YYYY` occurrence, fed to
`new Date(year, month - 1, day)`, as a civil day number. -/
def parseDate (s : String) : Option Int :=
  if s = "" then none
  else
    match findDDMM s.data with
    | none => none
    | some (d, m, y) => some (jsDateCtor (y : Int) ((m : Int) - 1) (d : Int))

/-- Try the full billing-period pattern
`/(\d{2}\/\d{2}\/\d{4})\s*-\s*(\d{2}\/\d{2}\/\d{4})/` at the start of the
list, returning the two captured date substrings. -/
def periodMatchAt (cs : List Char) : Option (String × String) := do
  let (g1, r1) ← ddmmSplit cs
  let r2 := r1.dropWhile (fun c => jsWhitespace c)
  match r2 with
  | '-' :: r3 =>
    let r4 := r3.dropWhile (fun c => jsWhitespace c)
    let (g2, _) ← ddmmSplit r4
    some (String.mk g1, String.mk g2)
  | _ => none

/-- Leftmost match of the billing-period pattern (line 162). -/
def findPeriodAux : List Char → Option (String × String)
  | [] => none
  | c :: rest =>
    match periodMatchAt (c :: rest) with
    | some r => some r
    | none => findPeriodAux rest

/-- `billingPeriod.match(/(\d{2}\/\d{2}\/\d{4})\s*-\s*(\d{2}\/\d{2}\/\d{4})/)`. -/
def findPeriodDDMM (s : String) : Option (String × String) := findPeriodAux s.data

/-! ### The three confidence sub-scores -/

/-- `completenessScore` accumulation (lines 125-150). -/
def completenessScore (b : Bills) (hasElec hasGas : Bool) : Nat :=
  (if hasElec then
    let elec := b.electricity.head?
    (if strTruthy ((elec.bind (·.supplier_details)).bind (·.billing_period)) then 5 else 0) +
    (if strTruthy ((elec.bind (·.supplier_details)).bind (·.issue_date)) then 3 else 0) +
    (if listTruthy ((elec.bind (·.charges_and_usage)).bind (·.meter_readings)) then 8 else 0) +
    (if listTruthy ((elec.bind (·.charges_and_usage)).bind (·.detailed_kWh_usage)) then 6
     else 0) +
    (if numPos ((elec.bind (·.charges_and_usage)).bind (·.total_amount_due)) then 6 else 0) +
    (if strTruthy (((elec.bind (·.electricity_details)).bind (·.meter_details)).bind (·.dg))
     then 4 else 0) +
    (if strTruthy (((elec.bind (·.electricity_details)).bind (·.meter_details)).bind (·.mcc))
     then 3 else 0)
   else 0) +
  (if hasGas then
    let gas := b.gas.head?
    (if strTruthy ((gas.bind (·.supplier_details)).bind (·.billing_period)) then 5 else 0) +
    (if strTruthy ((gas.bind (·.supplier_details)).bind (·.issue_date)) then 3 else 0) +
    (if listTruthy ((gas.bind (·.charges_and_usage)).bind (·.meter_readings)) then 8 else 0) +
    (if listTruthy ((gas.bind (·.charges_and_usage)).bind (·.gas_usage)) then 6 else 0) +
    (if numPos ((gas.bind (·.charges_and_usage)).bind (·.total_amount_due)) then 6 else 0) +
    (if strTruthy ((gas.bind (·.gas_details)).bind (·.conversion_factor)) then 3 else 0) +
    (if strTruthy ((gas.bind (·.gas_details)).bind (·.calorific_value)) then 4 else 0)
   else 0)

/-- The `readings.forEach` deduction loop of `checkDateConsistency`
(lines 178-186): −3 for each reading whose `date` parses and falls
outside `[periodStart, periodEnd]`. -/
def readingsDeduction (ps pe : Int) (readings : List MeterReading) (dateScore : Int) : Int :=
  readings.foldl
    (fun acc r =>
      match r.date with
      | none => acc
      | some d =>
        if d = "" then acc
        else
          match parseDate d with
          | some rd => if rd < ps ∨ rd > pe then acc - 3 else acc
          | none => acc) dateScore

/-- `checkDateConsistency` (lines 155-196), as a pure update of the
running `dateScore`. -/
def checkDateConsistency (bp issueDate : Option String) (readings : List MeterReading)
    (dateScore : Int) : Int :=
  match bp with
  | none => dateScore - 5
  | some s =>
    if s = "" then dateScore - 5
    else
      match findPeriodDDMM s with
      | none => dateScore - 3
      | some (startStr, endStr) =>
        match parseDate startStr, parseDate endStr with
        | some ps, some pe =>
          if ps ≥ pe then dateScore - 5
          else
            let ds1 := readingsDeduction ps pe readings dateScore
            match issueDate with
            | none => ds1
            | some i =>
              if i = "" then ds1
              else
                match parseDate i with
                | some iss => if iss < pe then ds1 - 2 else ds1
                | none => ds1
        | _, _ => dateScore - 5

/-- `calculateConfidenceScore` (lines 92-204).  On integer inputs
`Math.round` is the identity, so the result is the capped integer sum. -/
def calculateConfidenceScore (b : Bills) (hasElec hasGas : Bool) : Int :=
  let keyFields : Int := min (keyFieldScore (encodeParsed b) hasElec hasGas : Int) 40
  let completeness : Int := min (completenessScore b hasElec hasGas : Int) 35
  let dateScore0 : Int := 25
  let elec := b.electricity.head?
  let gas := b.gas.head?
  let dateScore1 :=
    if hasElec then
      checkDateConsistency ((elec.bind (·.supplier_details)).bind (·.billing_period))
        ((elec.bind (·.supplier_details)).bind (·.issue_date))
        (((elec.bind (·.charges_and_usage)).bind (·.meter_readings)).getD []) dateScore0
    else dateScore0
  let dateScore2 :=
    if hasGas then
      checkDateConsistency ((gas.bind (·.supplier_details)).bind (·.billing_period))
        ((gas.bind (·.supplier_details)).bind (·.issue_date))
        (((gas.bind (·.charges_and_usage)).bind (·.meter_readings)).getD []) dateScore1
    else dateScore1
  min (keyFields + completeness + max dateScore2 0) 100

/-! ## Retry coordinator (src/unnamed/part_002, lines 41-215) -/

/-- The observable outcome of one dispatch attempt: an HTTP response, or
a thrown/network-level error. -/
inductive AttemptOutcome where
  | response (status : Nat) (body : String)
  | thrown (message : String)
deriving DecidableEq, Repr

/-- The status recorded in `lastStatus`: the response status, or 500 for
a thrown error (line 202). -/
def outcomeStatus : AttemptOutcome → Nat
  | AttemptOutcome.response s _ => s
  | AttemptOutcome.thrown _ => 500

/-- The body recorded in `lastText`. -/
def outcomeText : AttemptOutcome → String
  | AttemptOutcome.response _ b => b
  | AttemptOutcome.thrown m => m

/-- `resp.ok`: status in the 2xx range; a thrown attempt is never ok. -/
def outcomeOk : AttemptOutcome → Bool
  | AttemptOutcome.response s _ => 200 ≤ s && s ≤ 299
  | AttemptOutcome.thrown _ => false

/-- The retry condition (line 193): status ≥ 500 or 429.  A thrown error
carries status 500, so it is always retryable — matching the catch
branch, which retries unconditionally on a non-final attempt. -/
def retryableOutcome (o : AttemptOutcome) : Bool :=
  outcomeStatus o ≥ 500 || outcomeStatus o = 429

/-- `MAX_RETRIES` (line 41). -/
def MAX_RETRIES : Nat := 3

/-- `BASE_DELAY` in milliseconds (line 42). -/
def BASE_DELAY : Nat := 500

/-- The JSON result the function returns. -/
structure RetryResult where
  ok : Bool
  status : Nat
  body : String
deriving DecidableEq, Repr

/-- The retry loop (lines 47-215), over an environment `f` giving the
outcome of each attempt.  Returns the result, the number of attempts
actually made, and the list of backoff delays slept (in order). -/
def retryLoop (f : Nat → AttemptOutcome) : Nat → Nat → Nat → String →
    RetryResult × Nat × List Nat
  | 0, attempt, lastStatus, lastText =>
    ({ ok := false, status := lastStatus, body := jsSlice lastText 4096 }, attempt, [])
  | fuel + 1, attempt, _, _ =>
    let o := f attempt
    if outcomeOk o then
      ({ ok := true, status := outcomeStatus o, body := jsSlice (outcomeText o) 4096 },
       attempt + 1, [])
    else if attempt < MAX_RETRIES - 1 ∧ retryableOutcome o then
      let next := retryLoop f fuel (attempt + 1) (outcomeStatus o) (outcomeText o)
      (next.1, next.2.1, (BASE_DELAY * 2 ^ attempt) :: next.2.2)
    else
      ({ ok := false, status := outcomeStatus o, body := jsSlice (outcomeText o) 4096 },
       attempt + 1, [])

/-- Run the coordinator: up to `MAX_RETRIES` attempts starting at 0. -/
def runRetry (f : Nat → AttemptOutcome) : RetryResult × Nat × List Nat :=
  retryLoop f MAX_RETRIES 0 0 ""

/-! ## Derived predicates used by the theorems -/

/-- "Identifier present" for an optional string field: present and
non-empty (JS truthiness). -/
def strPresent (o : Option String) : Prop := ∃ s, o = some s ∧ s ≠ ""

/-- Rule 1's gas-clearing condition, as a function of the pre-validation
state. -/
def rule1ClearsGas (b : Bills) : Prop :=
  countElectricityData b.electricity.head? ≥ 4 ∧
  countGasData b.gas.head? ≤ 2 ∧ countGasData b.gas.head? > 0

/-- Rule 1's electricity-clearing condition (the `else if` branch). -/
def rule1ClearsElec (b : Bills) : Prop :=
  ¬ rule1ClearsGas b ∧
  countGasData b.gas.head? ≥ 4 ∧
  countElectricityData b.electricity.head? ≤ 2 ∧ countElectricityData b.electricity.head? > 0

/-- Rule 2's gas-clearing condition, on the pre-validation state. -/
def rule2ClearsGas (b : Bills) : Prop :=
  isElectricityOnlyProvider b.electricity.head? ∧ countGasData b.gas.head? > 0

/-- Rule 2's electricity-clearing condition (the `else if` branch). -/
def rule2ClearsElec (b : Bills) : Prop :=
  ¬ rule2ClearsGas b ∧
  isGasOnlyProvider b.gas.head? ∧ countElectricityData b.electricity.head? > 0

/-- Rule 3's electricity-clearing condition, on the pre-validation state. -/
def rule3ClearsElec (b : Bills) : Prop :=
  hasElectricityIdentifier b.electricity.head? ∧
  ¬ hasElectricityBillingFields b.electricity.head? ∧
  countElectricityData b.electricity.head? ≤ 1

/-- Rule 3's gas-clearing condition, on the pre-validation state. -/
def rule3ClearsGas (b : Bills) : Prop :=
  hasGasIdentifier b.gas.head? ∧ ¬ hasGasBillingFields b.gas.head? ∧
  countGasData b.gas.head? ≤ 1

/-- Some rule clears the electricity branch (all conditions taken on the
pre-validation state). -/
def clearsElec (b : Bills) : Prop := rule1ClearsElec b ∨ rule2ClearsElec b ∨ rule3ClearsElec b

/-- Some rule clears the gas branch. -/
def clearsGas (b : Bills) : Prop := rule1ClearsGas b ∨ rule2ClearsGas b ∨ rule3ClearsGas b

/-- Modelled from the spec claim (§4.1: "later rules see the effect of
earlier clears"): the same three rules, but each rule re-reads the
*current* bills state — counts, provider flags and identifier flags are
recomputed after every clear.  This is the comparison definition for the
rule-ordering claim; the source (`validateConsistency`) instead
evaluates every condition on the pre-validation snapshot. -/
def validateConsistencySpecOrder (b : Bills) : Bills :=
  let b1 := applyRule1 (countElectricityData b.electricity.head?)
    (countGasData b.gas.head?) b
  let b2 := applyRule2 (isElectricityOnlyProvider b1.electricity.head?)
    (isGasOnlyProvider b1.gas.head?) (countElectricityData b1.electricity.head?)
    (countGasData b1.gas.head?) b1
  applyRule3 (hasElectricityIdentifier b2.electricity.head?)
    (hasElectricityBillingFields b2.electricity.head?)
    (countElectricityData b2.electricity.head?)
    (hasGasIdentifier b2.gas.head?) (hasGasBillingFields b2.gas.head?)
    (countGasData b2.gas.head?) b2

/-- A reading is out of the billing-period range in the correlator's
sense: its (`date || read_date`) is truthy, is not the sentinel
`"0000-00-00"`, and its parsed date is before the period start or after
the period end (invalid dates never compare). -/
def readingOutOfRange (startDate endDate : Option Int) (r : MeterReading) : Bool :=
  match jsOrStr r.date r.read_date with
  | none => false
  | some rd =>
    if rd = "" ∨ rd = "0000-00-00" then false
    else optDateLt (jsParseISODate rd) startDate || optDateLt endDate (jsParseISODate rd)

/-- Number of attempts the retry coordinator actually makes. -/
def retryAttempts (f : Nat → AttemptOutcome) : Nat := (runRetry f).2.1

/-- The backoff delays the retry coordinator sleeps, in order. -/
def retrySleeps (f : Nat → AttemptOutcome) : List Nat := (runRetry f).2.2

/-- The result the retry coordinator returns. -/
def retryResult (f : Nat → AttemptOutcome) : RetryResult := (runRetry f).1

/-! ## Concrete inputs used by counterexamples and witnesses -/

/-- The meter-file call spec the router builds when defaulting. -/
def meterApiCall : ApiCall :=
  { endpoint := "https://api.onebill.ie/api/meter-file", type := "meter", payload := none }

/-- A retry environment where every attempt throws. -/
def exRetryEnv : Nat → AttemptOutcome := fun _ => AttemptOutcome.thrown "boom"

/-- An electricity branch carrying mprn, dg, invoice number and account
number: validation data-point count 4, billing-indicator count 2. -/
def elecIdHeavy : ElectricityBill :=
  { electricity_details := some
      { invoice_number := some "INV-100"
        account_number := some "ACC-200"
        meter_details := some { mprn := some "10001234567", dg := some "DG1" } } }

/-- A gas branch carrying only an invoice number: data-point count 1. -/
def gasInvoiceOnly : GasBill :=
  { gas_details := some { invoice_number := some "INV-300" } }

/-- A gas branch whose supplier is the gas-only provider "Flogas" and
which carries one invoice number: data-point count 1. -/
def gasFlogas : GasBill :=
  { gas_details := some { invoice_number := some "INV-300" }
    supplier_details := some { name := some "Flogas" } }

/-- Counterexample input for the rule-1 count-basis claim. -/
def exC2 : Bills := { electricity := [elecIdHeavy], gas := [gasInvoiceOnly] }

/-- Counterexample input for the rule-ordering claim. -/
def exC3 : Bills := { electricity := [elecIdHeavy], gas := [gasFlogas] }

/-- A populated customer entry: name and address present. -/
def cusPopulated : CusDetails :=
  { details := some
      { customer_name := some "John Murphy"
        address := some { line_1 := some "1 Main Street", city := some "Dublin" } } }

/-- An electricity entry with invoice number, account number and mprn. -/
def elecPopulated : ElectricityBill :=
  { electricity_details := some
      { invoice_number := some "INV-1"
        account_number := some "ACC-1"
        meter_details := some { mprn := some "10001234567" } } }

/-- A gas entry with invoice number, account number and gprn. -/
def gasPopulated : GasBill :=
  { gas_details := some
      { invoice_number := some "INV-2"
        account_number := some "ACC-2"
        meter_details := some { gprn := some "7001234" } } }

/-- A populated extraction: customer name and address, both utility
branches with invoice number, account number and primary identifier —
every field the key-fields sub-score is specified to reward. -/
def exC4 : Bills :=
  { cus_details := [cusPopulated]
    electricity := [elecPopulated]
    gas := [gasPopulated] }

instance (b : Bills) : Decidable (rule1ClearsGas b) := by
  unfold rule1ClearsGas; infer_instance

instance (b : Bills) : Decidable (rule1ClearsElec b) := by
  unfold rule1ClearsElec; infer_instance

instance (b : Bills) : Decidable (rule2ClearsGas b) := by
  unfold rule2ClearsGas; infer_instance

instance (b : Bills) : Decidable (rule2ClearsElec b) := by
  unfold rule2ClearsElec; infer_instance

instance (b : Bills) : Decidable (rule3ClearsElec b) := by
  unfold rule3ClearsElec; infer_instance

instance (b : Bills) : Decidable (rule3ClearsGas b) := by
  unfold rule3ClearsGas; infer_instance

instance (b : Bills) : Decidable (clearsElec b) := by
  unfold clearsElec; infer_instance

instance (b : Bills) : Decidable (clearsGas b) := by
  unfold clearsGas; infer_instance

/-! ## Helper lemmas: per-rule branch projections -/

theorem applyRule1_electricity (e g : Nat) (x : Bills) :
    (applyRule1 e g x).electricity =
      if ¬(e ≥ 4 ∧ g ≤ 2 ∧ g > 0) ∧ (g ≥ 4 ∧ e ≤ 2 ∧ e > 0) then [] else x.electricity := by
  unfold applyRule1; split_ifs <;> first | rfl | tauto

theorem applyRule1_gas (e g : Nat) (x : Bills) :
    (applyRule1 e g x).gas = if e ≥ 4 ∧ g ≤ 2 ∧ g > 0 then [] else x.gas := by
  unfold applyRule1; split_ifs <;> rfl

theorem applyRule2_electricity (iE iG : Bool) (e g : Nat) (x : Bills) :
    (applyRule2 iE iG e g x).electricity =
      if ¬(iE ∧ g > 0) ∧ (iG ∧ e > 0) then [] else x.electricity := by
  unfold applyRule2; split_ifs <;> first | rfl | tauto

theorem applyRule2_gas (iE iG : Bool) (e g : Nat) (x : Bills) :
    (applyRule2 iE iG e g x).gas = if iE ∧ g > 0 then [] else x.gas := by
  unfold applyRule2; split_ifs <;> rfl

theorem applyRule3_electricity (hE hEb : Bool) (e : Nat) (hG hGb : Bool) (g : Nat) (x : Bills) :
    (applyRule3 hE hEb e hG hGb g x).electricity =
      if hE ∧ ¬hEb ∧ e ≤ 1 then [] else x.electricity := by
  unfold applyRule3; split_ifs <;> rfl

theorem applyRule3_gas (hE hEb : Bool) (e : Nat) (hG hGb : Bool) (g : Nat) (x : Bills) :
    (applyRule3 hE hEb e hG hGb g x).gas = if hG ∧ ¬hGb ∧ g ≤ 1 then [] else x.gas := by
  unfold applyRule3; split_ifs <;> rfl

theorem if_chain_or {α : Sort _} (p q r : Prop) [Decidable p] [Decidable q] [Decidable r]
    (a b : α) :
    (if p then a else if q then a else if r then a else b) = if r ∨ q ∨ p then a else b := by
  split_ifs <;> tauto

theorem ite_prop_congr {α : Sort _} {p q : Prop} [Decidable p] [Decidable q] (h : p ↔ q)
    (a b : α) : (if p then a else b) = if q then a else b := by
  split_ifs <;> tauto

/-- The validated electricity branch, characterized by the clear
conditions evaluated on the pre-validation state. -/
theorem snapshotElecAux (b : Bills) :
    (validateConsistency b).electricity = (if clearsElec b then [] else b.electricity) := by
  show (applyRule3 _ _ _ _ _ _ (applyRule2 _ _ _ _ (applyRule1 _ _ b))).electricity = _
  rw [applyRule3_electricity, applyRule2_electricity, applyRule1_electricity]
  exact (if_chain_or _ _ _ _ _).trans (ite_prop_congr Iff.rfl _ _)

/-- The validated gas branch, characterized by the clear conditions
evaluated on the pre-validation state. -/
theorem snapshotGasAux (b : Bills) :
    (validateConsistency b).gas = (if clearsGas b then [] else b.gas) := by
  show (applyRule3 _ _ _ _ _ _ (applyRule2 _ _ _ _ (applyRule1 _ _ b))).gas = _
  rw [applyRule3_gas, applyRule2_gas, applyRule1_gas]
  exact (if_chain_or _ _ _ _ _).trans (ite_prop_congr Iff.rfl _ _)

/-! ## Claim theorems -/

/-- C10.  Consistency validation either leaves each utility array
unchanged or replaces it with `[]`, and leaves the customer array, the
broadband array, and (being list equality) every field of every
surviving bill entry unchanged. -/
theorem validateConsistency_frame (b : Bills) :
    (validateConsistency b).cus_details = b.cus_details ∧
    (validateConsistency b).broadband = b.broadband ∧
    ((validateConsistency b).electricity = b.electricity ∨
      (validateConsistency b).electricity = []) ∧
    ((validateConsistency b).gas = b.gas ∨ (validateConsistency b).gas = []) := by
  simp only [validateConsistency, applyRule1, applyRule2, applyRule3]
  split_ifs <;> simp

/-- C3 (amended).  Every validation rule evaluates its conditions on the
pre-validation snapshot: the final electricity and gas branches are
determined by the disjunction of the three per-rule clear conditions,
each a function of the *initial* state — an earlier rule's clear is
never observed by a later rule's condition. -/
theorem validation_rules_use_initial_snapshot (b : Bills) :
    (validateConsistency b).electricity = (if clearsElec b then [] else b.electricity) ∧
    (validateConsistency b).gas = (if clearsGas b then [] else b.gas) :=
  ⟨snapshotElecAux b, snapshotGasAux b⟩

/-- C3 (counterexample).  On `exC3` — electricity with mprn, dg, invoice
and account (4 data points); gas with supplier "Flogas" and one invoice
(1 data point) — rule 1 clears gas, and rule 2 *still* sees the
snapshot's Flogas name and gas data points, so it clears electricity
too.  Re-evaluating each rule on the current state, as the claim
describes, would keep the electricity branch. -/
theorem rule_order_counterexample :
    (validateConsistency exC3).electricity = [] ∧
    (validateConsistencySpecOrder exC3).electricity = exC3.electricity ∧
    exC3.electricity ≠ [] := by decide

/-- C2 (amended).  Rule 1 clears the weaker branch exactly by the
validation data-point counts: `countElectricityData` (8 signals,
including mprn and dg) and `countGasData` (7 signals, including gprn) —
not the 6-signal billing-indicator counts. -/
theorem rule1_validation_counts (b : Bills) :
    (countElectricityData b.electricity.head? ≥ 4 → countGasData b.gas.head? ≤ 2 →
      countGasData b.gas.head? > 0 →
      applyRule1 (countElectricityData b.electricity.head?) (countGasData b.gas.head?) b =
        { b with gas := [] }) ∧
    (countGasData b.gas.head? ≥ 4 → countElectricityData b.electricity.head? ≤ 2 →
      countElectricityData b.electricity.head? > 0 →
      applyRule1 (countElectricityData b.electricity.head?) (countGasData b.gas.head?) b =
        { b with electricity := [] }) ∧
    (¬(countElectricityData b.electricity.head? ≥ 4 ∧ countGasData b.gas.head? ≤ 2 ∧
        countGasData b.gas.head? > 0) →
     ¬(countGasData b.gas.head? ≥ 4 ∧ countElectricityData b.electricity.head? ≤ 2 ∧
        countElectricityData b.electricity.head? > 0) →
      applyRule1 (countElectricityData b.electricity.head?) (countGasData b.gas.head?) b = b) := by
  refine ⟨fun h1 h2 h3 => ?_, fun h1 h2 h3 => ?_, fun h1 h2 => ?_⟩ <;>
    unfold applyRule1 <;> split_ifs <;> first | rfl | tauto | omega

theorem rule1_validation_counts_witness :
    countElectricityData exC2.electricity.head? = 4 ∧ countGasData exC2.gas.head? = 1 ∧
    applyRule1 (countElectricityData exC2.electricity.head?) (countGasData exC2.gas.head?)
      exC2 = { exC2 with gas := [] } :=
  ⟨by decide, by decide,
    (rule1_validation_counts exC2).1 (by decide) (by decide) (by decide)⟩

theorem strTruthy_iff (o : Option String) : strTruthy o = true ↔ strPresent o := by
  cases o <;> simp [strTruthy, strPresent]

/-- C1.  On the validated result, electricity is classified present iff
an identifier (mprn or dg) is present and the 6-signal indicator count
is at least 3; gas likewise with gprn; and exactly when neither holds,
the built call list is the single meter-endpoint spec — a meter spec
appears in the list in no other case. -/
theorem classification_and_meter_default (r : Bills) (phone : String) :
    (hasElectricityData (validateConsistency r) = true ↔
      (strPresent (classificationMprn (validateConsistency r)) ∨
        strPresent (classificationDg (validateConsistency r))) ∧
      3 ≤ electricityBillingIndicators (validateConsistency r).electricity.head?) ∧
    (hasGasData (validateConsistency r) = true ↔
      strPresent (classificationGprn (validateConsistency r)) ∧
      3 ≤ gasBillingIndicators (validateConsistency r).gas.head?) ∧
    ((hasElectricityData (validateConsistency r) = false ∧
        hasGasData (validateConsistency r) = false) ↔
      buildApiCalls (validateConsistency r) phone =
        [{ endpoint := "https://api.onebill.ie/api/meter-file", type := "meter",
           payload := none }]) ∧
    ((buildApiCalls (validateConsistency r) phone).filter (fun c => c.type == "meter") =
      if hasElectricityData (validateConsistency r) = false ∧
          hasGasData (validateConsistency r) = false then
        [{ endpoint := "https://api.onebill.ie/api/meter-file", type := "meter",
           payload := none }]
      else []) := by
  generalize validateConsistency r = b
  refine ⟨?_, ?_, ?_, ?_⟩
  · simp [hasElectricityData, Bool.and_eq_true, Bool.or_eq_true, strTruthy_iff,
      decide_eq_true_iff, ge_iff_le]
  · simp [hasGasData, Bool.and_eq_true, strTruthy_iff, decide_eq_true_iff, ge_iff_le]
  · by_cases hE : hasElectricityData b <;> by_cases hG : hasGasData b <;>
      simp [buildApiCalls, hE, hG]
  · by_cases hE : hasElectricityData b <;> by_cases hG : hasGasData b <;>
      simp [buildApiCalls, hE, hG]

/-- C4 (code bug).  The key-fields sub-score resolves its dotted paths
by literal property lookup, but every path's second segment
(`customer[0]`, `electricity[0]`, `gas[0]`) is not a key of the `bills`
object (whose keys are `cus_details`, `electricity`, `gas`,
`broadband`), so every lookup misses and the sub-score is 0 on *every*
extraction result — including fully populated ones, where the claim
requires a strictly positive sub-score. -/
theorem keyfields_subscore_zero (b : Bills) (hasElec hasGas : Bool) :
    keyFieldScore (encodeParsed b) hasElec hasGas = 0 := by
  cases hasElec <;> cases hasGas <;> rfl

/-- C5.  The confidence score is an integer in [0, 100]: the three
sub-scores are individually capped (40/35/25-start), the date sub-score
is floored at 0 by the `max` before being added, and the sum is capped
at 100. -/
theorem confidence_score_bounds (b : Bills) (hasElec hasGas : Bool) :
    0 ≤ calculateConfidenceScore b hasElec hasGas ∧
    calculateConfidenceScore b hasElec hasGas ≤ 100 := by
  simp only [calculateConfidenceScore]
  constructor
  · apply le_min _ (by norm_num)
    apply add_nonneg (add_nonneg _ _) (le_max_right _ _)
    · exact le_min (Int.natCast_nonneg _) (by norm_num)
    · exact le_min (Int.natCast_nonneg _) (by norm_num)
  · exact min_le_right _ _

/-- C2 (counterexample).  On `exC2` the 6-signal billing-indicator
counts are 2 (electricity) and 1 (gas) — under the claim's reading of
"indicator count", rule 1 must not fire — yet validation clears the gas
branch, because the counts it actually uses are the 8/7-signal
data-point counts (4 and 1 here). -/
theorem rule1_sixSignal_counterexample :
    electricityBillingIndicators exC2.electricity.head? = 2 ∧
    gasBillingIndicators exC2.gas.head? = 1 ∧
    countElectricityData exC2.electricity.head? = 4 ∧
    countGasData exC2.gas.head? = 1 ∧
    (validateConsistency exC2).gas = [] ∧ exC2.gas ≠ [] := by decide

/-! ## Character and string lemmas for the normalizers -/

theorem char_toNat_ofNat_small {n : Nat} (h : n < 55296) : (Char.ofNat n).toNat = n := by
  unfold Char.ofNat
  rw [dif_pos (Or.inl h)]
  rfl

theorem char_toUpper_idem (c : Char) : c.toUpper.toUpper = c.toUpper := by
  by_cases h : 97 ≤ c.toNat ∧ c.toNat ≤ 122
  · have h1 : c.toUpper = Char.ofNat (c.toNat - 32) := by
      unfold Char.toUpper
      rw [if_pos ⟨h.1, h.2⟩]
    have h2 : (Char.ofNat (c.toNat - 32)).toNat = c.toNat - 32 :=
      char_toNat_ofNat_small (by omega)
    rw [h1]
    unfold Char.toUpper
    rw [if_neg]
    rw [h2]
    omega
  · have h1 : c.toUpper = c := by
      unfold Char.toUpper
      rw [if_neg (fun hc => h ⟨hc.1, hc.2⟩)]
    rw [h1, h1]

theorem jsUpper_idem (s : String) : jsUpper (jsUpper s) = jsUpper s := by
  apply String.ext
  show (s.data.map Char.toUpper).map Char.toUpper = s.data.map Char.toUpper
  rw [List.map_map]
  exact List.map_congr_left (fun a _ => char_toUpper_idem a)

theorem jsUpper_ne_empty {s : String} (h : s ≠ "") : jsUpper s ≠ "" := by
  intro hcon
  apply h
  apply String.ext
  have := congrArg String.data hcon
  simpa [jsUpper] using this

theorem jsUpper_append (a b : String) : jsUpper (a ++ b) = jsUpper a ++ jsUpper b := by
  apply String.ext
  show (a.data ++ b.data).map Char.toUpper = (jsUpper a).data ++ (jsUpper b).data
  rw [List.map_append]
  rfl

theorem jsStartsWith_append (pre u : String) : jsStartsWith (pre ++ u) pre = true := by
  unfold jsStartsWith
  rw [String.data_append, List.isPrefixOf_iff_prefix]
  exact List.prefix_append _ _

theorem append_ne_empty_right (pre u : String) (h : u ≠ "") : pre ++ u ≠ "" := by
  intro hcon
  apply h
  apply String.ext
  have := congrArg String.data hcon
  rw [String.data_append] at this
  exact (List.append_eq_nil.mp this).2

theorem prefixFix (pre u : String) (hpre : jsUpper pre = pre) (hu : jsUpper u = u)
    (hune : u ≠ "") :
    (if jsStartsWith u pre then u else pre ++ u) ≠ "" ∧
    jsUpper (if jsStartsWith u pre then u else pre ++ u) =
      (if jsStartsWith u pre then u else pre ++ u) ∧
    jsStartsWith (if jsStartsWith u pre then u else pre ++ u) pre = true := by
  split_ifs with h
  · exact ⟨hune, hu, h⟩
  · refine ⟨append_ne_empty_right pre u hune, ?_, jsStartsWith_append pre u⟩
    rw [jsUpper_append, hpre, hu]

theorem prefixMcc_some (v : String) (h : v ≠ "") :
    prefixMcc (some v) =
      if jsStartsWith (jsUpper v) "MCC" then jsUpper v else "MCC" ++ jsUpper v := by
  simp only [prefixMcc]
  rw [if_neg h]

theorem prefixDg_some (v : String) (h : v ≠ "") :
    prefixDg (some v) =
      if jsStartsWith (jsUpper v) "DG" then jsUpper v else "DG" ++ jsUpper v := by
  simp only [prefixDg]
  rw [if_neg h]

/-- C8.  `prefixMcc` and `prefixDg` are idempotent on every string
(including the empty string, which maps to `""`), and on a non-empty
input the result is the upper-cased input, prefixed exactly when the
upper-cased input does not already start with the prefix. -/
theorem prefix_normalization (s : String) :
    prefixMcc (some (prefixMcc (some s))) = prefixMcc (some s) ∧
    prefixDg (some (prefixDg (some s))) = prefixDg (some s) ∧
    prefixMcc (some "") = "" ∧ prefixDg (some "") = "" ∧
    (s ≠ "" → prefixMcc (some s) =
      (if jsStartsWith (jsUpper s) "MCC" then jsUpper s else "MCC" ++ jsUpper s)) ∧
    (s ≠ "" → prefixDg (some s) =
      (if jsStartsWith (jsUpper s) "DG" then jsUpper s else "DG" ++ jsUpper s)) := by
  refine ⟨?_, ?_, rfl, rfl, prefixMcc_some s, prefixDg_some s⟩
  · by_cases hs : s = ""
    · subst hs; rfl
    · obtain ⟨hne, hupper, hstart⟩ :=
        prefixFix "MCC" (jsUpper s) (by decide) (jsUpper_idem s) (jsUpper_ne_empty hs)
      rw [prefixMcc_some s hs, prefixMcc_some _ hne, hupper, if_pos hstart]
  · by_cases hs : s = ""
    · subst hs; rfl
    · obtain ⟨hne, hupper, hstart⟩ :=
        prefixFix "DG" (jsUpper s) (by decide) (jsUpper_idem s) (jsUpper_ne_empty hs)
      rw [prefixDg_some s hs, prefixDg_some _ hne, hupper, if_pos hstart]

theorem prefix_normalization_witness :
    ("x7" : String) ≠ "" ∧
    prefixMcc (some "x7") =
      (if jsStartsWith (jsUpper "x7") "MCC" then jsUpper "x7" else "MCC" ++ jsUpper "x7") ∧
    prefixDg (some "x7") =
      (if jsStartsWith (jsUpper "x7") "DG" then jsUpper "x7" else "DG" ++ jsUpper "x7") :=
  ⟨by decide, (prefix_normalization "x7").2.2.2.2.1 (by decide),
    (prefix_normalization "x7").2.2.2.2.2 (by decide)⟩


theorem correlatorWarnAux_eq (sd ed : Option Int) (ps pe : String) (rs : List MeterReading) :
    ∀ i : Nat,
      correlatorWarnAux sd ed ps pe i rs =
        ((List.enumFrom i rs).filter (fun p => readingOutOfRange sd ed p.2)).map
          (fun p => readingWarning p.1 ((jsOrStr p.2.date p.2.read_date).getD "") ps pe) := by
  induction rs with
  | nil => intro i; rfl
  | cons r rest ih =>
    intro i
    have hcons : List.enumFrom i (r :: rest) = (i, r) :: List.enumFrom (i + 1) rest := rfl
    cases hj : jsOrStr r.date r.read_date with
    | none =>
      have hpred : readingOutOfRange sd ed r = false := by
        simp [readingOutOfRange, hj]
      simp only [correlatorWarnAux, hj]
      rw [hcons, List.filter_cons]
      simp [hpred, ih (i + 1)]
    | some rd =>
      by_cases hsent : rd = "" ∨ rd = "0000-00-00"
      · have hpred : readingOutOfRange sd ed r = false := by
          simp only [readingOutOfRange, hj]
          rw [if_pos hsent]
        simp only [correlatorWarnAux, hj]
        rw [if_pos hsent, hcons, List.filter_cons]
        simp [hpred, ih (i + 1)]
      · have hpred : readingOutOfRange sd ed r =
            (optDateLt (jsParseISODate rd) sd || optDateLt ed (jsParseISODate rd)) := by
          simp only [readingOutOfRange, hj]
          rw [if_neg hsent]
        by_cases hout :
            (optDateLt (jsParseISODate rd) sd || optDateLt ed (jsParseISODate rd)) = true
        · simp only [correlatorWarnAux, hj]
          rw [if_neg hsent, if_pos hout, hcons, List.filter_cons]
          simp [hpred, hout, hj, ih (i + 1)]
        · simp only [correlatorWarnAux, hj]
          rw [if_neg hsent, if_neg hout, hcons, List.filter_cons]
          simp [hpred, hout, ih (i + 1)]

/-- C7.  The date correlator returns `[]` when fewer than two
`YYYY-MM-DD` substrings occur in the billing-period text; otherwise it
returns exactly one warning per reading that is out of range — present
date, not the `"0000-00-00"` sentinel, parsed strictly before the first
matched date or strictly after the second — accumulated in order with
no threshold. -/
theorem correlator_warnings (bp : String) (rs : List MeterReading) :
    ((extractISODates bp).length < 2 → validateMeterReadingDates bp rs = []) ∧
    (∀ ps pe rest, extractISODates bp = ps :: pe :: rest →
      validateMeterReadingDates bp rs =
        ((rs.enum.filter
            (fun p => readingOutOfRange (jsParseISODate ps) (jsParseISODate pe) p.2)).map
          (fun p => readingWarning p.1 ((jsOrStr p.2.date p.2.read_date).getD "") ps pe))) := by
  constructor
  · intro hlen
    unfold validateMeterReadingDates
    split_ifs with h1 h2
    · rfl
    · rfl
    · rcases hevt : extractISODates bp with _ | ⟨a, _ | ⟨c, rest⟩⟩
      · simp [hevt]
      · simp [hevt]
      · rw [hevt] at hlen
        simp only [List.length_cons] at hlen
        omega
  · intro ps pe rest hevt
    unfold validateMeterReadingDates
    split_ifs with h1 h2
    · rw [List.enum]
      have : rs = [] := by
        subst h1
        have : extractISODates "" = [] := rfl
        rw [this] at hevt
        exact absurd hevt (by simp)
      simp [this]
    · have : rs = [] := List.isEmpty_iff.mp h2
      subst this
      simp [List.enum]
    · rw [hevt]
      rw [List.enum]
      exact correlatorWarnAux_eq _ _ ps pe rs 0

theorem correlator_warnings_witness :
    extractISODates "2024-01-01 to 2024-02-01" = ["2024-01-01", "2024-02-01"] ∧
    validateMeterReadingDates "2024-01-01 to 2024-02-01"
        [{ date := some "2024-03-15" }] =
      ["Meter reading 1 date 2024-03-15 falls outside billing period 2024-01-01 to 2024-02-01"] := by
  constructor
  · decide
  · have h := (correlator_warnings "2024-01-01 to 2024-02-01"
      [{ date := some "2024-03-15" }]).2 "2024-01-01" "2024-02-01" [] (by decide)
    rw [h]
    decide

theorem runRetry_cases (f : Nat → AttemptOutcome) :
    runRetry f =
      (if outcomeOk (f 0) then
        ({ ok := true, status := outcomeStatus (f 0), body := jsSlice (outcomeText (f 0)) 4096 },
         1, [])
      else if retryableOutcome (f 0) then
        (if outcomeOk (f 1) then
          ({ ok := true, status := outcomeStatus (f 1),
             body := jsSlice (outcomeText (f 1)) 4096 }, 2, [500])
        else if retryableOutcome (f 1) then
          (if outcomeOk (f 2) then
            ({ ok := true, status := outcomeStatus (f 2),
               body := jsSlice (outcomeText (f 2)) 4096 }, 3, [500, 1000])
          else
            ({ ok := false, status := outcomeStatus (f 2),
               body := jsSlice (outcomeText (f 2)) 4096 }, 3, [500, 1000]))
        else
          ({ ok := false, status := outcomeStatus (f 1),
             body := jsSlice (outcomeText (f 1)) 4096 }, 2, [500]))
      else
        ({ ok := false, status := outcomeStatus (f 0),
           body := jsSlice (outcomeText (f 0)) 4096 }, 1, [])) := by
  by_cases h0 : outcomeOk (f 0)
  · simp [runRetry, retryLoop, MAX_RETRIES, BASE_DELAY, h0]
  · by_cases h0r : retryableOutcome (f 0)
    · by_cases h1 : outcomeOk (f 1)
      · simp [runRetry, retryLoop, MAX_RETRIES, BASE_DELAY, h0, h0r, h1]
      · by_cases h1r : retryableOutcome (f 1)
        · by_cases h2 : outcomeOk (f 2)
          · simp [runRetry, retryLoop, MAX_RETRIES, BASE_DELAY, h0, h0r, h1, h1r, h2]
          · simp [runRetry, retryLoop, MAX_RETRIES, BASE_DELAY, h0, h0r, h1, h1r, h2]
        · simp [runRetry, retryLoop, MAX_RETRIES, BASE_DELAY, h0, h0r, h1, h1r]
    · simp [runRetry, retryLoop, MAX_RETRIES, BASE_DELAY, h0, h0r]

end VisionBillParser
namespace VisionBillParser

/-- C6.  The retry coordinator makes at most 3 attempts; the sleeps are
exactly `500 * 2^attempt` ms, one before each retry; a non-final attempt
is retried only when it failed with a retryable outcome (status ≥ 500 or
= 429, a thrown error counting as 500) and always is in that case; and
when the last attempt is not a 2xx success the returned value is the
non-throwing `{ok := false}` result carrying the last observed status
and the 4096-character-truncated body. -/
theorem retry_coordinator (f : Nat → AttemptOutcome) :
    retryAttempts f ≤ 3 ∧
    retrySleeps f = (List.range (retryAttempts f - 1)).map (fun i => BASE_DELAY * 2 ^ i) ∧
    (∀ i, i + 1 < retryAttempts f →
      ¬(outcomeOk (f i) = true) ∧ retryableOutcome (f i) = true) ∧
    (∀ i, i < retryAttempts f → i + 1 < MAX_RETRIES → ¬(outcomeOk (f i) = true) →
      retryableOutcome (f i) = true → i + 1 < retryAttempts f) ∧
    (¬(outcomeOk (f (retryAttempts f - 1)) = true) →
      retryResult f = { ok := false, status := outcomeStatus (f (retryAttempts f - 1)),
                        body := jsSlice (outcomeText (f (retryAttempts f - 1))) 4096 }) ∧
    (∀ i, i < retryAttempts f → ¬(outcomeOk (f i) = true) →
      ¬(retryableOutcome (f i) = true) → retryAttempts f = i + 1) := by
  have hc := runRetry_cases f
  by_cases h0 : outcomeOk (f 0)
  · have hn : retryAttempts f = 1 := by simp [retryAttempts, hc, h0]
    have hs : retrySleeps f = [] := by simp [retrySleeps, hc, h0]
    rw [hn, hs]
    refine ⟨by omega, by decide, ?_, ?_, ?_, ?_⟩
    · intro i hi; omega
    · intro i hi hlt hok hr
      have : i = 0 := by omega
      subst this; exact absurd h0 hok
    · intro hok; exact absurd h0 hok
    · intro i hi hok hr
      have : i = 0 := by omega
      subst this; exact absurd h0 hok
  · by_cases h0r : retryableOutcome (f 0)
    · by_cases h1 : outcomeOk (f 1)
      · have hn : retryAttempts f = 2 := by simp [retryAttempts, hc, h0, h0r, h1]
        have hs : retrySleeps f = [500] := by simp [retrySleeps, hc, h0, h0r, h1]
        rw [hn, hs]
        refine ⟨by omega, by decide, ?_, ?_, ?_, ?_⟩
        · intro i hi
          have : i = 0 := by omega
          subst this; exact ⟨h0, h0r⟩
        · intro i hi hlt hok hr
          rcases i with _ | _ | i
          · omega
          · exact absurd h1 hok
          · omega
        · intro hok; exact absurd h1 hok
        · intro i hi hok hr
          rcases i with _ | _ | i
          · exact absurd h0r hr
          · exact absurd h1 hok
          · omega
      · by_cases h1r : retryableOutcome (f 1)
        · have hn : retryAttempts f = 3 := by
            by_cases h2 : outcomeOk (f 2) <;>
              simp [retryAttempts, hc, h0, h0r, h1, h1r, h2]
          have hs : retrySleeps f = [500, 1000] := by
            by_cases h2 : outcomeOk (f 2) <;>
              simp [retrySleeps, hc, h0, h0r, h1, h1r, h2]
          rw [hn, hs]
          refine ⟨by omega, by decide, ?_, ?_, ?_, ?_⟩
          · intro i hi
            rcases i with _ | _ | i
            · exact ⟨h0, h0r⟩
            · exact ⟨h1, h1r⟩
            · omega
          · intro i hi hlt hok hr
            exact hlt
          · intro hok
            have h2 : ¬(outcomeOk (f 2) = true) := hok
            simp [retryResult, hc, h0, h0r, h1, h1r, h2]
          · intro i hi hok hr
            rcases i with _ | _ | _ | i
            · exact absurd h0r hr
            · exact absurd h1r hr
            · rfl
            · omega
        · have hn : retryAttempts f = 2 := by simp [retryAttempts, hc, h0, h0r, h1, h1r]
          have hs : retrySleeps f = [500] := by simp [retrySleeps, hc, h0, h0r, h1, h1r]
          rw [hn, hs]
          refine ⟨by omega, by decide, ?_, ?_, ?_, ?_⟩
          · intro i hi
            have : i = 0 := by omega
            subst this; exact ⟨h0, h0r⟩
          · intro i hi hlt hok hr
            rcases i with _ | _ | i
            · omega
            · exact absurd hr h1r
            · omega
          · intro hok
            simp [retryResult, hc, h0, h0r, h1, h1r]
          · intro i hi hok hr
            rcases i with _ | _ | i
            · exact absurd h0r hr
            · rfl
            · omega
    · have hn : retryAttempts f = 1 := by simp [retryAttempts, hc, h0, h0r]
      have hs : retrySleeps f = [] := by simp [retrySleeps, hc, h0, h0r]
      rw [hn, hs]
      refine ⟨by omega, by decide, ?_, ?_, ?_, ?_⟩
      · intro i hi; omega
      · intro i hi hlt hok hr
        have : i = 0 := by omega
        subst this; exact absurd hr h0r
      · intro hok
        simp [retryResult, hc, h0, h0r]
      · intro i hi hok hr
        have : i = 0 := by omega
        subst this; rfl

theorem retry_coordinator_witness :
    ¬(outcomeOk (exRetryEnv (retryAttempts exRetryEnv - 1)) = true) ∧
    retryResult exRetryEnv =
      { ok := false, status := outcomeStatus (exRetryEnv (retryAttempts exRetryEnv - 1)),
        body := jsSlice (outcomeText (exRetryEnv (retryAttempts exRetryEnv - 1))) 4096 } :=
  ⟨by decide, (retry_coordinator exRetryEnv).2.2.2.2.1 (by decide)⟩

/-- C9 (counterexample).  The meter-branch form (index.ts lines
1354-1372) carries the file and the *raw* phone: with phone `"08 1"`
the form holds `"08 1"`, and the whitespace-stripped `"081"` the claim
requires appears nowhere in it. -/
theorem meter_payload_counterexample :
    formEntriesFor meterApiCall "08 1" "bill.pdf" =
      [FormEntry.file "bill.pdf", FormEntry.text "phone" "08 1"] ∧
    normalizePhone "08 1" = "081" ∧
    FormEntry.text "phone" (normalizePhone "08 1") ∉
      formEntriesFor meterApiCall "08 1" "bill.pdf" := by decide

/-- C9 (amended).  When neither utility is classified present the built
call list is the single meter spec, whose multipart form contains
exactly the original file plus the phone number *as provided* (no
whitespace stripping), and no extracted field (mprn, dg, mcc, gprn)
appears: every text entry is the `phone` field. -/
theorem meter_payload_raw_phone (b : Bills) (phone fileName : String) :
    ¬(hasElectricityData b = true) → ¬(hasGasData b = true) →
    buildApiCalls b phone = [meterApiCall] ∧
    formEntriesFor meterApiCall phone fileName =
      [FormEntry.file fileName, FormEntry.text "phone" phone] ∧
    (∀ k v, FormEntry.text k v ∈ formEntriesFor meterApiCall phone fileName →
      k = "phone" ∧ v = phone) := by
  intro hE hG
  refine ⟨?_, rfl, ?_⟩
  · simp [buildApiCalls, hE, hG, meterApiCall]
  · intro k v hmem
    simpa [formEntriesFor, meterApiCall] using hmem

theorem meter_payload_raw_phone_witness :
    ¬(hasElectricityData {} = true) ∧ ¬(hasGasData {} = true) ∧
    buildApiCalls {} "08 1" = [meterApiCall] :=
  ⟨by decide, by decide,
    (meter_payload_raw_phone {} "08 1" "bill.pdf" (by decide) (by decide)).1⟩

end VisionBillParser
